import Mathlib

/-!
Verification of the CamS3Library capture-and-persistence pipeline
(`src/CamS3Library.cpp`, `src/CamS3Library.h`).

The C++ classes `CamS3_Camera`, `CamS3_Mic`, `CamS3_SD` and the orchestrator
`CamS3Library` are shallowly embedded as pure Lean functions over explicit
state records.  Hardware driver calls (`esp_camera_*`, `i2s_*`, `SD.*`,
`File::write`) are modelled as oracle parameters supplying each call's
outcome; machine integers are `Nat`/`Int` with explicit `% 2^w` where the
C++ performs fixed-width arithmetic.
-/

/-- Sensor classification enum, mirroring `cams3_sensor_type_t`
(CamS3Library.h lines 68-73). -/
inductive SensorType
  | unknown
  | ov5640
  | ov3660
  | ov2640
deriving DecidableEq, Repr

/-- Sensor product id OV5640_PID (esp32-camera `sensor.h`). -/
def ov5640PID : Nat := 0x5640

/-- Sensor product id OV3660_PID (esp32-camera `sensor.h`). -/
def ov3660PID : Nat := 0x3660

/-- Sensor product id OV2640_PID (esp32-camera `sensor.h`). -/
def ov2640PID : Nat := 0x26

/-- The `switch (sensor->id.PID)` sensor detection in `CamS3_Camera::begin`
(CamS3Library.cpp lines 94-107). -/
def classifySensor (pid : Nat) : SensorType :=
  if pid = ov5640PID then .ov5640
  else if pid = ov3660PID then .ov3660
  else if pid = ov2640PID then .ov2640
  else .unknown

/-- A camera frame buffer (`camera_fb_t*`): an identifier for the driver-pool
buffer plus its byte length (`fb->len`). -/
structure Frame where
  id : Nat
  len : Nat
deriving DecidableEq, Repr

/-- State of `CamS3_Camera`: `_initialized`, `_sensorType`, the `sensor`
handle (modelled as non-null flag) and the checked-out frame buffer `fb`
(`none` = `nullptr`).  CamS3Library.h lines 87-98. -/
structure CameraState where
  initialized : Bool
  sensorType : SensorType
  sensor : Bool
  fb : Option Frame
deriving DecidableEq, Repr

/-- The member-initializer state of a freshly constructed `CamS3_Camera`. -/
def initialCamera : CameraState :=
  { initialized := false, sensorType := .unknown, sensor := false, fb := none }

/-- Driver-facing events emitted by camera operations: a frame fetch
(`esp_camera_fb_get`, recording its result) or a frame return to the pool
(`esp_camera_fb_return`). -/
inductive CamEvent
  | fbGet (result : Option Frame)
  | fbReturn (buf : Frame)
deriving DecidableEq, Repr

/-- `CamS3_Camera::begin` (CamS3Library.cpp lines 56-116).  Oracle inputs:
`espInitOk` is the `esp_camera_init` outcome, `sensorOk` whether
`esp_camera_sensor_get` returned a handle, `pid` the sensor's product id.
LED/config side effects have no bearing on the modelled state. -/
def CamS3_Camera.begin (st : CameraState) (espInitOk sensorOk : Bool) (pid : Nat) :
    Bool × CameraState :=
  if st.initialized then (true, st)
  else if !espInitOk then (false, st)
  else
    let st1 := { st with sensor := sensorOk }
    if !sensorOk then (false, st1)
    else (true, { st1 with sensorType := classifySensor pid, initialized := true })

/-- `CamS3_Camera::deinit` (CamS3Library.cpp lines 143-157).  `driverOk` is
the `esp_camera_deinit` outcome.  Note the source clears `sensor` and `fb`
but not `_sensorType`. -/
def CamS3_Camera.deinit (st : CameraState) (driverOk : Bool) : Bool × CameraState :=
  if !st.initialized then (true, st)
  else if !driverOk then (false, st)
  else (true, { st with initialized := false, sensor := false, fb := none })

/-- `CamS3_Camera::get` (CamS3Library.cpp lines 159-167).  `newFrame` is the
`esp_camera_fb_get()` result; it is stored into `fb` unconditionally;
the previous `fb` value is overwritten without being returned to the pool. -/
def CamS3_Camera.get (st : CameraState) (newFrame : Option Frame) :
    Bool × CameraState × List CamEvent :=
  if !st.initialized then (false, st, [])
  else (newFrame.isSome, { st with fb := newFrame }, [CamEvent.fbGet newFrame])

/-- `CamS3_Camera::free` (CamS3Library.cpp lines 169-176): returns the
checked-out buffer to the pool if one exists, else fails. -/
def CamS3_Camera.free (st : CameraState) : Bool × CameraState × List CamEvent :=
  match st.fb with
  | some b => (true, { st with fb := none }, [CamEvent.fbReturn b])
  | none => (false, st, [])

/-- `CamS3_Camera::getSensorType` (CamS3Library.cpp lines 178-180). -/
def CamS3_Camera.getSensorType (st : CameraState) : SensorType :=
  st.sensorType

/-- State of `CamS3_SD`: only `_initialized` matters for the modelled
operations (CamS3Library.h lines 555-561). -/
structure SDState where
  initialized : Bool
deriving DecidableEq, Repr

/-- `CamS3_SD::begin` (CamS3Library.cpp lines 600-631).  `mountOk` is the
`SD.begin` outcome, `cardPresent` whether `SD.cardType() != CARD_NONE`. -/
def CamS3_SD.begin (st : SDState) (mountOk cardPresent : Bool) : Bool × SDState :=
  if st.initialized then (true, st)
  else if !mountOk then (false, st)
  else if !cardPresent then (false, st)
  else (true, { st with initialized := true })

/-- `CamS3_SD::writeFile` (CamS3Library.cpp lines 678-696).  `openOk` is the
`SD.open(path, FILE_WRITE)` outcome and `written` the byte count returned by
`file.write(data, len)`; success requires `written == len`. -/
def CamS3_SD.writeFile (st : SDState) (openOk : Bool) (written len : Nat) : Bool :=
  if !st.initialized then false
  else if !openOk then false
  else written == len

/-- `CamS3_SD::saveFrame` (CamS3Library.cpp lines 798-815): guards on
initialization and a non-null frame, then writes `fb->len` bytes via
`writeFile`. -/
def CamS3_SD.saveFrame (st : SDState) (fb : Option Frame) (openOk : Bool) (written : Nat) :
    Bool :=
  if !st.initialized then false
  else
    match fb with
    | none => false
    | some f => CamS3_SD.writeFile st openOk written f.len

/-- `CamS3Library::captureToSD` (CamS3Library.cpp lines 306-325): guard both
peripherals, `Camera.get()`, `Sd.saveFrame(Camera.fb, path)`,
`Camera.free()` (unconditionally), return the save result. -/
def CamS3Library.captureToSD (cam : CameraState) (sd : SDState) (newFrame : Option Frame)
    (openOk : Bool) (written : Nat) : Bool × CameraState × List CamEvent :=
  if !cam.initialized then (false, cam, [])
  else if !sd.initialized then (false, cam, [])
  else
    let g := CamS3_Camera.get cam newFrame
    if !g.1 then (false, g.2.1, g.2.2)
    else
      let result := CamS3_SD.saveFrame sd g.2.1.fb openOk written
      let f := CamS3_Camera.free g.2.1
      (result, f.2.1, g.2.2 ++ f.2.2)

/-- One client-visible camera operation, used to analyse acquire/release
traces against `CamS3_Camera`. -/
inductive CamOp
  | opBegin (espInitOk sensorOk : Bool) (pid : Nat)
  | opGet (newFrame : Option Frame)
  | opFree
  | opDeinit (driverOk : Bool)

/-- Run a sequence of camera operations from a state, counting successful
`get` acquires and successful `free` releases. -/
def runCam : CameraState → List CamOp → CameraState × Nat × Nat
  | st, [] => (st, 0, 0)
  | st, CamOp.opBegin e s p :: rest =>
      runCam (CamS3_Camera.begin st e s p).2 rest
  | st, CamOp.opGet nf :: rest =>
      let g := CamS3_Camera.get st nf
      let r := runCam g.2.1 rest
      (r.1, (if g.1 then r.2.1 + 1 else r.2.1), r.2.2)
  | st, CamOp.opFree :: rest =>
      let f := CamS3_Camera.free st
      let r := runCam f.2.1 rest
      (r.1, r.2.1, if f.1 then r.2.2 + 1 else r.2.2)
  | st, CamOp.opDeinit d :: rest =>
      runCam (CamS3_Camera.deinit st d).2 rest

/-- State of `CamS3_Mic`: `_initialized`, `_sampleRate`, `_sampleBits` and
the `_i2sHandle` (modelled as a non-null flag).  CamS3Library.h lines
450-457. -/
structure MicState where
  initialized : Bool
  sampleRate : Nat
  sampleBits : Nat
  handle : Bool
deriving DecidableEq, Repr

/-- `CamS3_Mic::begin` (CamS3Library.cpp lines 403-471).  Oracle inputs are
the outcomes of `i2s_new_channel`, `i2s_channel_init_pdm_rx_mode` and
`i2s_channel_enable`; on a post-creation failure the source deletes the
channel and nulls the handle before returning false. -/
def CamS3_Mic.begin (st : MicState) (sampleRate sampleBits : Nat)
    (newChanOk initPdmOk enableOk : Bool) : Bool × MicState :=
  if st.initialized then (true, st)
  else
    let st1 := { st with sampleRate := sampleRate, sampleBits := sampleBits }
    if !newChanOk then (false, st1)
    else
      let st2 := { st1 with handle := true }
      if !initPdmOk then (false, { st2 with handle := false })
      else if !enableOk then (false, { st2 with handle := false })
      else (true, { st2 with initialized := true })

/-- Combined state of the `CamS3Library` facade's three members
(CamS3Library.h lines 718-722). -/
structure LibState where
  camera : CameraState
  sd : SDState
  mic : MicState
deriving DecidableEq, Repr

/-- Oracle outcomes for the camera driver calls inside one `begin`. -/
structure CamOracle where
  espInitOk : Bool
  sensorOk : Bool
  pid : Nat
deriving DecidableEq, Repr

/-- Oracle outcomes for the SD driver calls inside one `begin`. -/
structure SdOracle where
  mountOk : Bool
  cardPresent : Bool
deriving DecidableEq, Repr

/-- Oracle outcomes for the I2S driver calls inside one `begin`. -/
structure MicOracle where
  newChanOk : Bool
  initPdmOk : Bool
  enableOk : Bool
deriving DecidableEq, Repr

/-- `CamS3Library::begin(bool initSD, bool initMic)` (CamS3Library.cpp lines
288-304): camera first with early return on failure; then SD and microphone
independently when requested (`Mic.begin()` uses the 16000 Hz / 16-bit
defaults); returns `sdOk && micOk`. -/
def CamS3Library.begin2 (lib : LibState) (initSD initMic : Bool)
    (camO : CamOracle) (sdO : SdOracle) (micO : MicOracle) : Bool × LibState :=
  let camR := CamS3_Camera.begin lib.camera camO.espInitOk camO.sensorOk camO.pid
  if !camR.1 then (false, { lib with camera := camR.2 })
  else
    let sdR := if initSD then CamS3_SD.begin lib.sd sdO.mountOk sdO.cardPresent
               else (true, lib.sd)
    let micR := if initMic then
                  CamS3_Mic.begin lib.mic 16000 16 micO.newChanOk micO.initPdmOk micO.enableOk
                else (true, lib.mic)
    (sdR.1 && micR.1, { camera := camR.2, sd := sdR.2, mic := micR.2 })

/-- Target sample count `(_sampleRate * durationMs) / 1000` computed at the
top of `CamS3_Mic::record` (CamS3Library.cpp line 511): both operands are
uint32_t, so the product wraps mod 2^32 before the division. -/
def targetSamples (sampleRate durationMs : Nat) : Nat :=
  sampleRate * durationMs % 2 ^ 32 / 1000

/-- Per-iteration chunk `(remaining > 1024) ? 1024 : remaining`
(CamS3Library.cpp line 524). -/
def chunkSamples (remaining : Nat) : Nat :=
  if remaining > 1024 then 1024 else remaining

/-- The accumulation loop of `CamS3_Mic::record` (CamS3Library.cpp lines
522-531).  `driver i req` gives the outcome of the `i2s_channel_read` call
with `req` requested bytes at fuel level `i` (`.1` = `err == ESP_OK`,
`.2` = `bytesRead`); the wall-clock deadline `durationMs + 1000` is
modelled by the fuel running out. -/
def recordLoop (driver : Nat → Nat → Bool × Nat) (total : Nat) : Nat → Nat → Nat
  | 0, acc => acc
  | Nat.succ fuel, acc =>
    if acc < total then
      let toRead := chunkSamples (total - acc)
      let resp := driver fuel (toRead * 2)
      recordLoop driver total fuel (if resp.1 then acc + resp.2 / 2 else acc)
    else acc

/-- `CamS3_Mic::record` (CamS3Library.cpp lines 508-539), returning the
reported sample count (`*outSamples`); `none` models the `nullptr` returns
(not initialized, or `malloc` failure signalled by `allocOk = false`). -/
def CamS3_Mic.record (st : MicState) (durationMs : Nat) (allocOk : Bool)
    (driver : Nat → Nat → Bool × Nat) (fuel : Nat) : Option Nat :=
  if !st.initialized then none
  else if !allocOk then none
  else some (recordLoop driver (targetSamples st.sampleRate durationMs) fuel 0)

/-- The `int16_t absVal = abs(buffer[i])` step in `CamS3_Mic::getPeakAmplitude`
(CamS3Library.cpp line 561): `abs` on the promoted 32-bit int, then the
narrowing conversion back to `int16_t` (two's-complement wrap mod 2^16). -/
def absInt16 (s : Int) : Int :=
  let w := s.natAbs % 65536
  if w < 32768 then (w : Int) else (w : Int) - 65536

/-- One iteration of the peak loop (CamS3Library.cpp lines 560-565). -/
def peakStep (peak s : Int) : Int :=
  let a := absInt16 s
  if a > peak then a else peak

/-- The full peak reduction with `int16_t peak = 0` (CamS3Library.cpp lines
559-565). -/
def peakLoop (samples : List Int) : Int :=
  samples.foldl peakStep 0

/-- `CamS3_Mic::getPeakAmplitude` (CamS3Library.cpp lines 547-569).
`allocOk` is the scratch `malloc` outcome; `readResult` is the outcome of
`read(buffer, samples, 500)`: `none` for the `-1` error return, otherwise
the list of samples actually read (`readSamples` = its length; the source
returns 0 when `readSamples <= 0`). -/
def CamS3_Mic.getPeakAmplitude (st : MicState) (allocOk : Bool)
    (readResult : Option (List Int)) : Nat :=
  if !st.initialized then 0
  else if !allocOk then 0
  else
    match readResult with
    | none => 0
    | some samples =>
      if samples.length = 0 then 0
      else (peakLoop samples).toNat

/-- Little-endian byte serialization of a 16-bit value, as laid out by
`file.write((const uint8_t*)&x, 2)` on the little-endian ESP32-S3. -/
def le16 (x : Nat) : List Nat :=
  [x % 256, x / 256 % 256]

/-- Little-endian byte serialization of a 32-bit value, as laid out by
`file.write((const uint8_t*)&x, 4)`. -/
def le32 (x : Nat) : List Nat :=
  [x % 256, x / 256 % 256, x / 65536 % 256, x / 16777216 % 256]

/-- The unsigned 16-bit image of a signed sample, i.e. the in-memory
representation of an `int16_t` on the little-endian target. -/
def toNat16 (s : Int) : Nat :=
  (s % 65536).toNat

/-- The in-memory byte image of the `int16_t` sample buffer passed to
`file.write((const uint8_t*)samples, dataSize)` (CamS3Library.cpp line 390). -/
def pcm16 : List Int → List Nat
  | [] => []
  | s :: rest => le16 (toNat16 s) ++ pcm16 rest

/-- The sequence of byte payloads passed to the fourteen `file.write` calls
of `CamS3Library::recordToSD` (CamS3Library.cpp lines 361-390), with the
uint32/uint16 arithmetic of lines 365-367 and 371 made explicit. -/
def wavWrites (sampleRate sampleBits : Nat) (buf : List Int) : List (List Nat) :=
  let numSamples := buf.length
  let numChannels : Nat := 1
  let bytesPerSample := sampleBits / 8
  let dataSize := numSamples * bytesPerSample % 2 ^ 32
  let byteRate := sampleRate * numChannels * bytesPerSample % 2 ^ 32
  let blockAlign := numChannels * bytesPerSample % 2 ^ 16
  let chunkSize := (36 + dataSize) % 2 ^ 32
  [[0x52, 0x49, 0x46, 0x46],
   le32 chunkSize,
   [0x57, 0x41, 0x56, 0x45],
   [0x66, 0x6D, 0x74, 0x20],
   le32 16,
   le16 1,
   le16 numChannels,
   le32 (sampleRate % 2 ^ 32),
   le32 byteRate,
   le16 blockAlign,
   le16 (sampleBits % 2 ^ 16),
   [0x64, 0x61, 0x74, 0x61],
   le32 dataSize,
   (pcm16 buf).take dataSize]

/-- The byte content of the WAV file produced by a fully successful
`recordToSD`: the concatenation of all `file.write` payloads. -/
def wavFileBytes (sampleRate sampleBits : Nat) (buf : List Int) : List Nat :=
  (wavWrites sampleRate sampleBits buf).flatten

/-- Result of one `CamS3Library::recordToSD` run: the returned boolean,
the number of `Mic.freeSamples(samples)` calls performed on the recording
buffer, and the byte payloads submitted to `file.write` in order. -/
structure RecordToSDResult where
  ok : Bool
  frees : Nat
  writes : List (List Nat)
deriving DecidableEq, Repr

/-- `CamS3Library::recordToSD` (CamS3Library.cpp lines 327-397).
`samples` is the buffer returned by `Mic.record` (`none` = `nullptr`),
holding the `numSamples` recorded samples; `openOk` is the
`SD.open(filename, FILE_WRITE)` outcome.  `writeResp i` is the byte count
returned by the i-th `file.write` call; the source discards every one of
these return values, so the parameter is unused, exactly as in the code. -/
def CamS3Library.recordToSD (micInit sdInit : Bool) (sampleRate sampleBits : Nat)
    (samples : Option (List Int)) (openOk : Bool) (_writeResp : Nat → Nat) :
    RecordToSDResult :=
  if !micInit then { ok := false, frees := 0, writes := [] }
  else if !sdInit then { ok := false, frees := 0, writes := [] }
  else
    match samples with
    | none => { ok := false, frees := 0, writes := [] }
    | some buf =>
      if buf.length = 0 then { ok := false, frees := 0, writes := [] }
      else if !openOk then { ok := false, frees := 1, writes := [] }
      else { ok := true, frees := 1, writes := wavWrites sampleRate sampleBits buf }

/-- Parsed fields of a 44-byte canonical WAV header plus payload.  This is
the read-back view used to state the round-trip property. -/
structure WavFields where
  chunkId : List Nat
  chunkSize : Nat
  format : List Nat
  subchunk1Id : List Nat
  subchunk1Size : Nat
  audioFormat : Nat
  numChannels : Nat
  sampleRate : Nat
  byteRate : Nat
  blockAlign : Nat
  bitsPerSample : Nat
  subchunk2Id : List Nat
  subchunk2Size : Nat
  payload : List Nat
deriving DecidableEq, Repr

/-- Little-endian decode of two bytes. -/
def dec16 (b0 b1 : Nat) : Nat :=
  b0 + 256 * b1

/-- Little-endian decode of four bytes. -/
def dec32 (b0 b1 b2 b3 : Nat) : Nat :=
  b0 + 256 * b1 + 65536 * b2 + 16777216 * b3

/-- Parse the canonical 44-byte WAV header (little-endian fields) from a
byte stream; fails when fewer than 44 bytes are present. -/
def parseWav : List Nat → Option WavFields
  | r0 :: r1 :: r2 :: r3 ::
    c0 :: c1 :: c2 :: c3 ::
    w0 :: w1 :: w2 :: w3 ::
    f0 :: f1 :: f2 :: f3 ::
    s0 :: s1 :: s2 :: s3 ::
    a0 :: a1 ::
    n0 :: n1 ::
    q0 :: q1 :: q2 :: q3 ::
    y0 :: y1 :: y2 :: y3 ::
    g0 :: g1 ::
    p0 :: p1 ::
    d0 :: d1 :: d2 :: d3 ::
    z0 :: z1 :: z2 :: z3 :: rest =>
      some { chunkId := [r0, r1, r2, r3]
             chunkSize := dec32 c0 c1 c2 c3
             format := [w0, w1, w2, w3]
             subchunk1Id := [f0, f1, f2, f3]
             subchunk1Size := dec32 s0 s1 s2 s3
             audioFormat := dec16 a0 a1
             numChannels := dec16 n0 n1
             sampleRate := dec32 q0 q1 q2 q3
             byteRate := dec32 y0 y1 y2 y3
             blockAlign := dec16 g0 g1
             bitsPerSample := dec16 p0 p1
             subchunk2Id := [d0, d1, d2, d3]
             subchunk2Size := dec32 z0 z1 z2 z3
             payload := rest }
  | _ => none

/-- Camera state after a successful `begin` on a board whose sensor reports
the OV5640 product id. -/
def cameraAfterBeginOV5640 : CameraState :=
  (CamS3_Camera.begin initialCamera true true ov5640PID).2

/-- A reachable state with a frame checked out: `begin` followed by a
successful `get`. -/
def cameraWithCheckedOutFrame : CameraState :=
  (CamS3_Camera.get cameraAfterBeginOV5640 (some ⟨1, 100⟩)).2.1

/-- C1: for every execution of `recordToSD` in which `Mic.record` returned a
non-null sample buffer, `freeSamples` is called on that buffer exactly once
before returning, on every exit path including the zero-samples-captured
failure path.  The code violates this: on the zero-samples path (non-null
buffer, `numSamples == 0`) it returns false without any `freeSamples` call,
leaking the buffer.  This theorem evaluates the embedding on that path. -/
theorem c1_recordToSD_zero_sample_buffer_not_freed (sampleRate sampleBits : Nat)
    (openOk : Bool) (wr : Nat → Nat) :
    CamS3Library.recordToSD true true sampleRate sampleBits (some []) openOk wr =
      { ok := false, frees := 0, writes := [] } := rfl

/-- C8 (amended: none — confirmed): if microphone initialization fails at a
configuration step after the I2S channel was created (PDM RX init or channel
enable), the channel handle is deleted and reset to null before the call
reports failure, and the state remains uninitialized. -/
theorem c8_mic_begin_unwinds_on_late_failure (st : MicState) (rate bits : Nat)
    (n i e : Bool) (hinit : st.initialized = false) (hn : n = true)
    (hfail : i = false ∨ e = false) :
    (CamS3_Mic.begin st rate bits n i e).1 = false ∧
    (CamS3_Mic.begin st rate bits n i e).2.handle = false ∧
    (CamS3_Mic.begin st rate bits n i e).2.initialized = false := by
  subst hn
  rcases hfail with h | h
  · subst h
    simp [CamS3_Mic.begin, hinit]
  · subst h
    cases i <;> simp [CamS3_Mic.begin, hinit]

/-- Witness for C8 at a concrete uninitialized state with the PDM RX init
step failing. -/
theorem c8_mic_begin_unwinds_witness :
    ((⟨false, 16000, 16, false⟩ : MicState).initialized = false ∧ (true : Bool) = true ∧
      ((false : Bool) = false ∨ (true : Bool) = false)) ∧
    ((CamS3_Mic.begin ⟨false, 16000, 16, false⟩ 44100 16 true false true).1 = false ∧
     (CamS3_Mic.begin ⟨false, 16000, 16, false⟩ 44100 16 true false true).2.handle = false ∧
     (CamS3_Mic.begin ⟨false, 16000, 16, false⟩ 44100 16 true false true).2.initialized = false) :=
  ⟨⟨rfl, rfl, Or.inl rfl⟩,
   c8_mic_begin_unwinds_on_late_failure ⟨false, 16000, 16, false⟩ 44100 16 true false true
     rfl rfl (Or.inl rfl)⟩

/-- C10: a second successful `get` before a `free` is not rejected: it
overwrites the stored frame-buffer pointer with the new frame, and the
previously checked-out buffer is never passed to `esp_camera_fb_return`
(no `fbReturn` event is emitted), so the at-most-one-checked-out-buffer
discipline is not enforced. -/
theorem c10_second_get_overwrites_without_return (st : CameraState) (b b' : Frame)
    (hinit : st.initialized = true) (_hfb : st.fb = some b) :
    CamS3_Camera.get st (some b') =
      (true, { st with fb := some b' }, [CamEvent.fbGet (some b')]) ∧
    ∀ buf : Frame, CamEvent.fbReturn buf ∉ (CamS3_Camera.get st (some b')).2.2 := by
  constructor
  · simp [CamS3_Camera.get, hinit]
  · intro buf
    simp [CamS3_Camera.get, hinit]

/-- Witness for C10 at the reachable checked-out state. -/
theorem c10_second_get_overwrites_witness :
    (cameraWithCheckedOutFrame.initialized = true ∧
      cameraWithCheckedOutFrame.fb = some ⟨1, 100⟩) ∧
    (CamS3_Camera.get cameraWithCheckedOutFrame (some ⟨2, 64⟩) =
      (true, { cameraWithCheckedOutFrame with fb := some ⟨2, 64⟩ },
        [CamEvent.fbGet (some ⟨2, 64⟩)]) ∧
     ∀ buf : Frame, CamEvent.fbReturn buf ∉
       (CamS3_Camera.get cameraWithCheckedOutFrame (some ⟨2, 64⟩)).2.2) :=
  ⟨⟨rfl, rfl⟩,
   c10_second_get_overwrites_without_return cameraWithCheckedOutFrame ⟨1, 100⟩ ⟨2, 64⟩
     rfl rfl⟩

/-- C7 counterexample: on a reachable initialized state that detected an
OV5640 sensor, a successful `deinit` returns true but `getSensorType`
afterwards still reports OV5640, not Unknown: the source clears the
`sensor` handle and `fb` but never resets `_sensorType`. -/
theorem c7_counterexample_sensor_type_survives_deinit :
    (CamS3_Camera.deinit cameraAfterBeginOV5640 true).1 = true ∧
    CamS3_Camera.getSensorType (CamS3_Camera.deinit cameraAfterBeginOV5640 true).2 =
      SensorType.ov5640 ∧
    CamS3_Camera.getSensorType (CamS3_Camera.deinit cameraAfterBeginOV5640 true).2 ≠
      SensorType.unknown := by
  decide

/-- C7 amended: a successful `deinit` releases the driver resources (clears
the `sensor` handle and the frame pointer) and transitions the state to
uninitialized, but retains the stored sensor type (`getSensorType` keeps its
prior value); calling `deinit` when already uninitialized is a no-op
returning true, so a second consecutive `deinit` also reports success. -/
theorem c7_deinit_amended (st : CameraState) (driverOk d2 d3 : Bool)
    (hinit : st.initialized = true) (hok : driverOk = true) :
    (CamS3_Camera.deinit st driverOk).1 = true ∧
    (CamS3_Camera.deinit st driverOk).2.initialized = false ∧
    (CamS3_Camera.deinit st driverOk).2.sensor = false ∧
    (CamS3_Camera.deinit st driverOk).2.fb = none ∧
    CamS3_Camera.getSensorType (CamS3_Camera.deinit st driverOk).2 = st.sensorType ∧
    CamS3_Camera.deinit (CamS3_Camera.deinit st driverOk).2 d2 =
      (true, (CamS3_Camera.deinit st driverOk).2) ∧
    CamS3_Camera.deinit { st with initialized := false } d3 =
      (true, { st with initialized := false }) := by
  subst hok
  simp [CamS3_Camera.deinit, CamS3_Camera.getSensorType, hinit]

/-- Witness for C7 at the reachable post-`begin` state. -/
theorem c7_deinit_amended_witness :
    (cameraAfterBeginOV5640.initialized = true ∧ (true : Bool) = true) ∧
    ((CamS3_Camera.deinit cameraAfterBeginOV5640 true).1 = true ∧
     (CamS3_Camera.deinit cameraAfterBeginOV5640 true).2.initialized = false ∧
     (CamS3_Camera.deinit cameraAfterBeginOV5640 true).2.sensor = false ∧
     (CamS3_Camera.deinit cameraAfterBeginOV5640 true).2.fb = none ∧
     CamS3_Camera.getSensorType (CamS3_Camera.deinit cameraAfterBeginOV5640 true).2 =
       cameraAfterBeginOV5640.sensorType ∧
     CamS3_Camera.deinit (CamS3_Camera.deinit cameraAfterBeginOV5640 true).2 false =
       (true, (CamS3_Camera.deinit cameraAfterBeginOV5640 true).2) ∧
     CamS3_Camera.deinit { cameraAfterBeginOV5640 with initialized := false } true =
       (true, { cameraAfterBeginOV5640 with initialized := false })) :=
  ⟨⟨rfl, rfl⟩, c7_deinit_amended cameraAfterBeginOV5640 true false true rfl rfl⟩

/-- The boolean result of `CamS3_Camera::begin`: success iff already
initialized or both driver steps succeed. -/
lemma cam_begin_fst (st : CameraState) (e s : Bool) (p : Nat) :
    (CamS3_Camera.begin st e s p).1 = (st.initialized || (e && s)) := by
  cases h : st.initialized <;> cases e <;> cases s <;> simp [CamS3_Camera.begin, h]

/-- `CamS3_Camera::begin` leaves the state initialized exactly when it
reports success. -/
lemma cam_begin_initialized (st : CameraState) (e s : Bool) (p : Nat) :
    (CamS3_Camera.begin st e s p).2.initialized = (st.initialized || (e && s)) := by
  cases h : st.initialized <;> cases e <;> cases s <;> simp [CamS3_Camera.begin, h]

/-- The boolean result of `CamS3_SD::begin`. -/
lemma sd_begin_fst (st : SDState) (m c : Bool) :
    (CamS3_SD.begin st m c).1 = (st.initialized || (m && c)) := by
  cases h : st.initialized <;> cases m <;> cases c <;> simp [CamS3_SD.begin, h]

/-- `CamS3_SD::begin` leaves the state initialized exactly when it reports
success. -/
lemma sd_begin_initialized (st : SDState) (m c : Bool) :
    (CamS3_SD.begin st m c).2.initialized = (st.initialized || (m && c)) := by
  cases h : st.initialized <;> cases m <;> cases c <;> simp [CamS3_SD.begin, h]

/-- The boolean result of `CamS3_Mic::begin`. -/
lemma mic_begin_fst (st : MicState) (r b : Nat) (n i e : Bool) :
    (CamS3_Mic.begin st r b n i e).1 = (st.initialized || (n && i && e)) := by
  cases h : st.initialized <;> cases n <;> cases i <;> cases e <;>
    simp [CamS3_Mic.begin, h]

/-- `CamS3_Mic::begin` leaves the state initialized exactly when it reports
success. -/
lemma mic_begin_initialized (st : MicState) (r b : Nat) (n i e : Bool) :
    (CamS3_Mic.begin st r b n i e).2.initialized = (st.initialized || (n && i && e)) := by
  cases h : st.initialized <;> cases n <;> cases i <;> cases e <;>
    simp [CamS3_Mic.begin, h]

/-- C6: the composite `begin(initSD, initMic)` succeeds iff the camera
initialization succeeds and every requested optional component succeeds
(conjunct 1, with conjuncts 2-4 relating each component's reported success
to its final initialized state); a camera failure returns false before
touching the optional components (conjunct 5: on an uninitialized camera
with `esp_camera_init` failing, the SD and microphone states are exactly
the entry states); when a requested optional component fails the call
reports overall failure but each optional component keeps its own `begin`
outcome - no rollback of siblings (conjunct 6). -/
theorem c6_begin2_composite (lib : LibState) (initSD initMic s : Bool) (p : Nat)
    (camO : CamOracle) (sdO : SdOracle) (micO : MicOracle)
    (hcam : lib.camera.initialized = false) :
    ((CamS3Library.begin2 lib initSD initMic camO sdO micO).1 =
      ((CamS3_Camera.begin lib.camera camO.espInitOk camO.sensorOk camO.pid).1 &&
       (!initSD || (CamS3_SD.begin lib.sd sdO.mountOk sdO.cardPresent).1) &&
       (!initMic ||
         (CamS3_Mic.begin lib.mic 16000 16 micO.newChanOk micO.initPdmOk micO.enableOk).1))) ∧
    ((CamS3_Camera.begin lib.camera camO.espInitOk camO.sensorOk camO.pid).1 =
      (CamS3_Camera.begin lib.camera camO.espInitOk camO.sensorOk camO.pid).2.initialized) ∧
    ((CamS3_SD.begin lib.sd sdO.mountOk sdO.cardPresent).1 =
      (CamS3_SD.begin lib.sd sdO.mountOk sdO.cardPresent).2.initialized) ∧
    ((CamS3_Mic.begin lib.mic 16000 16 micO.newChanOk micO.initPdmOk micO.enableOk).1 =
      (CamS3_Mic.begin lib.mic 16000 16 micO.newChanOk micO.initPdmOk micO.enableOk).2.initialized) ∧
    (CamS3Library.begin2 lib initSD initMic ⟨false, s, p⟩ sdO micO =
      (false, { lib with camera := (CamS3_Camera.begin lib.camera false s p).2 })) ∧
    (CamS3Library.begin2 lib true true ⟨true, true, p⟩ sdO micO =
      ((CamS3_SD.begin lib.sd sdO.mountOk sdO.cardPresent).1 &&
        (CamS3_Mic.begin lib.mic 16000 16 micO.newChanOk micO.initPdmOk micO.enableOk).1,
       { camera := (CamS3_Camera.begin lib.camera true true p).2,
         sd := (CamS3_SD.begin lib.sd sdO.mountOk sdO.cardPresent).2,
         mic := (CamS3_Mic.begin lib.mic 16000 16
                   micO.newChanOk micO.initPdmOk micO.enableOk).2 })) := by
  refine ⟨?_, ?_, ?_, ?_, ?_, ?_⟩
  · cases hc : (CamS3_Camera.begin lib.camera camO.espInitOk camO.sensorOk camO.pid).1
    · simp [CamS3Library.begin2, hc]
    · cases initSD <;> cases initMic <;> simp [CamS3Library.begin2, hc]
  · rw [cam_begin_fst, cam_begin_initialized]
  · rw [sd_begin_fst, sd_begin_initialized]
  · rw [mic_begin_fst, mic_begin_initialized]
  · simp [CamS3Library.begin2, cam_begin_fst, hcam]
  · simp [CamS3Library.begin2, cam_begin_fst]

/-- Concrete `CamS3Library` facade state with only the camera initialized. -/
def libFresh : LibState :=
  ⟨initialCamera, ⟨false⟩, ⟨false, 16000, 16, false⟩⟩

/-- Witness for C6: camera init succeeds, SD succeeds, microphone fails at
the PDM RX step: overall result is false, yet the SD stays initialized. -/
theorem c6_begin2_composite_witness :
    libFresh.camera.initialized = false ∧
    (CamS3Library.begin2 libFresh true true ⟨true, true, ov5640PID⟩ ⟨true, true⟩
        ⟨true, false, true⟩).1 = false ∧
    (CamS3Library.begin2 libFresh true true ⟨true, true, ov5640PID⟩ ⟨true, true⟩
        ⟨true, false, true⟩).2.sd.initialized = true := by
  have h := c6_begin2_composite libFresh true true true ov5640PID
    ⟨true, true, ov5640PID⟩ ⟨true, true⟩ ⟨true, false, true⟩ rfl
  refine ⟨rfl, ?_, ?_⟩
  · rw [h.1]
    rfl
  · rw [h.2.2.2.2.2]
    rfl

/-- `CamS3_Camera::begin` never touches the checked-out frame pointer. -/
lemma cam_begin_fb (st : CameraState) (e s : Bool) (p : Nat) :
    (CamS3_Camera.begin st e s p).2.fb = st.fb := by
  cases h : st.initialized <;> cases e <;> cases s <;> simp [CamS3_Camera.begin, h]

/-- Trace invariant for `CamS3_Camera`: over any operation sequence, the
number of successful `free` releases is at most the number of successful
`get` acquires plus one for a frame already checked out at the start. -/
lemma runCam_frees_le_gets (ops : List CamOp) (st : CameraState) :
    (runCam st ops).2.2 ≤ (runCam st ops).2.1 + (if st.fb.isSome then 1 else 0) := by
  induction ops generalizing st with
  | nil => simp [runCam]
  | cons op rest ih =>
    cases op with
    | opBegin e s p =>
      have h := ih (CamS3_Camera.begin st e s p).2
      rw [cam_begin_fb] at h
      simpa [runCam] using h
    | opGet nf =>
      have h := ih (CamS3_Camera.get st nf).2.1
      cases hi : st.initialized
      · simp only [runCam]
        simp only [CamS3_Camera.get, hi] at h ⊢
        simpa using h
      · cases nf with
        | none =>
          simp only [runCam]
          simp only [CamS3_Camera.get, hi] at h ⊢
          simp at h ⊢
          cases hfb : st.fb <;> simp [hfb] <;> omega
        | some f =>
          simp only [runCam]
          simp only [CamS3_Camera.get, hi] at h ⊢
          simp at h ⊢
          cases hfb : st.fb <;> simp [hfb] <;> omega
    | opFree =>
      have h := ih (CamS3_Camera.free st).2.1
      cases hfb : st.fb with
      | none =>
        simp only [runCam]
        simp only [CamS3_Camera.free, hfb] at h ⊢
        simpa using h
      | some b =>
        simp only [runCam]
        simp only [CamS3_Camera.free, hfb] at h ⊢
        simp at h ⊢
        omega
    | opDeinit d =>
      have h := ih (CamS3_Camera.deinit st d).2
      have hbit : (if (CamS3_Camera.deinit st d).2.fb.isSome then 1 else 0) ≤
          (if st.fb.isSome then 1 else 0) := by
        cases hi : st.initialized <;> cases d <;> simp [CamS3_Camera.deinit, hi]
      simp only [runCam]
      calc (runCam (CamS3_Camera.deinit st d).2 rest).2.2 ≤ _ := h
        _ ≤ _ := Nat.add_le_add_left hbit _

/-- C3 amended: in `captureToSD`, after a successful frame acquire the frame
release is always executed even if the storage write failed (the acquired
frame's `fbReturn` event is emitted and the final `fb` is null), and the
call returns the write's success value (conjuncts 1-3); if no frame buffer
is checked out when `captureToSD` is called, none remains checked out after
it returns, on every exit path (conjunct 4); for any sequence of
acquire/release calls starting with no checked-out buffer, the number of
successful releases never exceeds the number of successful acquires
(conjunct 5).  (The original claim's unconditional "no frame buffer remains
checked out after return" fails on the early not-initialized exits, see the
counterexample.) -/
theorem c3_capture_release_amended (cam : CameraState) (sd : SDState) (f : Frame)
    (openOk : Bool) (written : Nat)
    (hcam : cam.initialized = true) (hsd : sd.initialized = true) :
    ((CamS3Library.captureToSD cam sd (some f) openOk written).1 =
      CamS3_SD.writeFile sd openOk written f.len) ∧
    ((CamS3Library.captureToSD cam sd (some f) openOk written).2.1.fb = none) ∧
    (CamEvent.fbReturn f ∈ (CamS3Library.captureToSD cam sd (some f) openOk written).2.2) ∧
    (∀ (ini sens : Bool) (ty : SensorType) (sd2 : SDState) (nf : Option Frame),
      (CamS3Library.captureToSD ⟨ini, ty, sens, none⟩ sd2 nf openOk written).2.1.fb = none) ∧
    (∀ (ops : List CamOp) (ini sens : Bool) (ty : SensorType),
      (runCam ⟨ini, ty, sens, none⟩ ops).2.2 ≤ (runCam ⟨ini, ty, sens, none⟩ ops).2.1) := by
  refine ⟨?_, ?_, ?_, ?_, ?_⟩
  · simp [CamS3Library.captureToSD, CamS3_Camera.get, CamS3_Camera.free,
      CamS3_SD.saveFrame, hcam, hsd]
  · simp [CamS3Library.captureToSD, CamS3_Camera.get, CamS3_Camera.free,
      CamS3_SD.saveFrame, hcam, hsd]
  · simp [CamS3Library.captureToSD, CamS3_Camera.get, CamS3_Camera.free,
      CamS3_SD.saveFrame, hcam, hsd]
  · intro ini sens ty sd2 nf
    cases ini <;> cases hs : sd2.initialized <;> cases nf <;>
      simp [CamS3Library.captureToSD, CamS3_Camera.get, CamS3_Camera.free,
        CamS3_SD.saveFrame, hs]
  · intro ops ini sens ty
    simpa using runCam_frees_le_gets ops ⟨ini, ty, sens, none⟩

/-- C3 counterexample: from the reachable state where a frame is checked out
(`begin` then successful `get`) and the SD card is not initialized,
`captureToSD` returns failure at the SD guard and the frame remains checked
out, contradicting the claim that after `captureToSD` returns (success or
failure) no frame buffer remains checked out. -/
theorem c3_counterexample_checked_out_frame_survives :
    (CamS3Library.captureToSD cameraWithCheckedOutFrame ⟨false⟩ (some ⟨2, 50⟩) true 50).1 =
      false ∧
    (CamS3Library.captureToSD cameraWithCheckedOutFrame ⟨false⟩ (some ⟨2, 50⟩) true 50).2.1.fb =
      some ⟨1, 100⟩ := by
  decide

/-- Witness for C3 at a concrete initialized camera and SD state with a
failing write (0 of 100 bytes written). -/
theorem c3_capture_release_witness :
    (cameraAfterBeginOV5640.initialized = true ∧ (⟨true⟩ : SDState).initialized = true) ∧
    ((CamS3Library.captureToSD cameraAfterBeginOV5640 ⟨true⟩ (some ⟨1, 100⟩) true 0).1 =
      CamS3_SD.writeFile ⟨true⟩ true 0 100 ∧
     (CamS3Library.captureToSD cameraAfterBeginOV5640 ⟨true⟩ (some ⟨1, 100⟩) true 0).2.1.fb =
      none ∧
     CamEvent.fbReturn ⟨1, 100⟩ ∈
      (CamS3Library.captureToSD cameraAfterBeginOV5640 ⟨true⟩ (some ⟨1, 100⟩) true 0).2.2) := by
  have h := c3_capture_release_amended cameraAfterBeginOV5640 ⟨true⟩ ⟨1, 100⟩ true 0 rfl rfl
  exact ⟨⟨rfl, rfl⟩, h.1, h.2.1, h.2.2.1⟩

/-- C2 amended: if the underlying storage write returns fewer bytes than
requested, `writeFile` returns false, and so do `saveFrame` and
`captureToSD` (conjuncts 1-3); but `recordToSD` is an exception: it writes
through raw `file.write` calls whose return values it discards, so it
reports success whenever recording yielded a non-empty buffer and the file
opened, regardless of the write outcome (conjunct 4). -/
theorem c2_partial_write_amended (sd : SDState) (cam : CameraState) (openOk : Bool)
    (written len fid rate bits : Nat) (x : Int) (xs : List Int) (wr : Nat → Nat)
    (hshort : written < len) :
    CamS3_SD.writeFile sd openOk written len = false ∧
    CamS3_SD.saveFrame sd (some ⟨fid, len⟩) openOk written = false ∧
    (CamS3Library.captureToSD cam sd (some ⟨fid, len⟩) openOk written).1 = false ∧
    (CamS3Library.recordToSD true true rate bits (some (x :: xs)) true wr).ok = true := by
  have hne : written ≠ len := Nat.ne_of_lt hshort
  refine ⟨?_, ?_, ?_, ?_⟩
  · unfold CamS3_SD.writeFile
    split_ifs <;> simp [hne]
  · unfold CamS3_SD.saveFrame CamS3_SD.writeFile
    split_ifs <;> simp [hne]
  · cases hc : cam.initialized <;> cases hs : sd.initialized <;>
      simp [CamS3Library.captureToSD, CamS3_Camera.get, CamS3_Camera.free,
        CamS3_SD.saveFrame, CamS3_SD.writeFile, hc, hs, hne]
  · simp [CamS3Library.recordToSD]

/-- C2 counterexample: a `recordToSD` run in which every `file.write` call
reports 0 bytes written (each requested payload is non-empty, so every
write is a partial write) still returns true. -/
theorem c2_counterexample_recordToSD_ignores_partial_write :
    (CamS3Library.recordToSD true true 16000 16 (some [1]) true (fun _ => 0)).ok = true ∧
    (∀ w ∈ (CamS3Library.recordToSD true true 16000 16 (some [1]) true
        (fun _ => 0)).writes, 0 < w.length) := by
  decide

/-- Witness for C2: the driver writes 0 of 100 requested bytes. -/
theorem c2_partial_write_witness :
    0 < 100 ∧
    (CamS3_SD.writeFile ⟨true⟩ true 0 100 = false ∧
     CamS3_SD.saveFrame ⟨true⟩ (some ⟨1, 100⟩) true 0 = false ∧
     (CamS3Library.captureToSD cameraAfterBeginOV5640 ⟨true⟩ (some ⟨1, 100⟩) true 0).1 =
       false ∧
     (CamS3Library.recordToSD true true 16000 16 (some [(7 : Int)]) true
        (fun _ => 0)).ok = true) :=
  ⟨by decide,
   c2_partial_write_amended ⟨true⟩ cameraAfterBeginOV5640 true 0 100 1 16000 16 7 []
     (fun _ => 0) (by decide)⟩

/-- The per-iteration chunk never exceeds the remaining sample count. -/
lemma chunkSamples_le (remaining : Nat) : chunkSamples remaining ≤ remaining := by
  unfold chunkSamples
  split <;> omega

/-- The per-iteration chunk never exceeds 1024 samples. -/
lemma chunkSamples_le_1024 (remaining : Nat) : chunkSamples remaining ≤ 1024 := by
  unfold chunkSamples
  split <;> omega

/-- If the driver never returns more bytes than requested, the accumulation
loop of `record` never exceeds the target sample count. -/
lemma recordLoop_le_total (driver : Nat → Nat → Bool × Nat) (total : Nat)
    (hdriver : ∀ i req, (driver i req).2 ≤ req) :
    ∀ fuel acc, acc ≤ total → recordLoop driver total fuel acc ≤ total := by
  intro fuel
  induction fuel with
  | zero =>
    intro acc h
    simpa [recordLoop] using h
  | succ n ih =>
    intro acc h
    rw [recordLoop]
    split
    · apply ih
      cases hok : (driver n (chunkSamples (total - acc) * 2)).1 with
      | false => simpa [hok] using h
      | true =>
        simp only [hok, if_true]
        have hb := hdriver n (chunkSamples (total - acc) * 2)
        have hc := chunkSamples_le (total - acc)
        omega
    · exact h

/-- A driver model that always delivers exactly the requested bytes. -/
def driverEcho : Nat → Nat → Bool × Nat :=
  fun _ req => (true, req)

/-- C4 counterexample: the target is computed in uint32_t arithmetic, so for
R = 16000 and D = 268436 ms the product 4294976000 wraps mod 2^32 and the
program's target is 8 samples - not `sampleRate * D / 1000` = 4294976 as the
claim states - and `record` with a full-delivery driver reports only 8
samples for the 268-second request. -/
theorem c4_counterexample_target_wraps :
    targetSamples 16000 268436 = 8 ∧
    16000 * 268436 / 1000 = 4294976 ∧
    targetSamples 16000 268436 ≠ 16000 * 268436 / 1000 ∧
    CamS3_Mic.record ⟨true, 16000, 16, true⟩ 268436 true driverEcho 100 = some 8 := by
  decide

/-- C4 amended: `record(D)` computes a target sample count of
`(sampleRate * D mod 2^32) / 1000` - the uint32 product wraps - which equals
`sampleRate * D / 1000` whenever `sampleRate * D < 2^32`; it reads in chunks
of at most 1024 samples per call, and the sample count it reports never
exceeds the target (hence never exceeds `R*D/1000 + chunkSize`), provided
the driver never returns more bytes per read than requested. -/
theorem c4_record_sample_bound (st : MicState) (durationMs fuel : Nat)
    (driver : Nat → Nat → Bool × Nat)
    (hdriver : ∀ i req, (driver i req).2 ≤ req) (hinit : st.initialized = true)
    (hnowrap : st.sampleRate * durationMs < 2 ^ 32) :
    CamS3_Mic.record st durationMs true driver fuel =
      some (recordLoop driver (targetSamples st.sampleRate durationMs) fuel 0) ∧
    targetSamples st.sampleRate durationMs =
      st.sampleRate * durationMs % 2 ^ 32 / 1000 ∧
    targetSamples st.sampleRate durationMs = st.sampleRate * durationMs / 1000 ∧
    recordLoop driver (targetSamples st.sampleRate durationMs) fuel 0 ≤
      st.sampleRate * durationMs / 1000 ∧
    recordLoop driver (targetSamples st.sampleRate durationMs) fuel 0 ≤
      st.sampleRate * durationMs / 1000 + 1024 ∧
    ∀ remaining, chunkSamples remaining ≤ 1024 := by
  have htgt : targetSamples st.sampleRate durationMs =
      st.sampleRate * durationMs / 1000 := by
    unfold targetSamples
    rw [Nat.mod_eq_of_lt hnowrap]
  have hbound := recordLoop_le_total driver (targetSamples st.sampleRate durationMs)
    hdriver fuel 0 (Nat.zero_le _)
  have hbound2 := le_trans hbound (le_of_eq htgt)
  refine ⟨?_, rfl, htgt, hbound2, le_trans hbound2 (Nat.le_add_right _ _),
    chunkSamples_le_1024⟩
  simp [CamS3_Mic.record, hinit]

/-- Witness for C4: 16000 Hz for 1000 ms (no uint32 wrap) with a
full-delivery driver records exactly the 16000-sample target within the
bound. -/
theorem c4_record_sample_bound_witness :
    (∀ i req, (driverEcho i req).2 ≤ req) ∧
    ((⟨true, 16000, 16, true⟩ : MicState).initialized = true) ∧
    16000 * 1000 < 2 ^ 32 ∧
    CamS3_Mic.record ⟨true, 16000, 16, true⟩ 1000 true driverEcho 100 =
      some (recordLoop driverEcho (targetSamples 16000 1000) 100 0) ∧
    recordLoop driverEcho (targetSamples 16000 1000) 100 0 ≤ 16000 ∧
    recordLoop driverEcho (targetSamples 16000 1000) 100 0 = 16000 := by
  have h := c4_record_sample_bound ⟨true, 16000, 16, true⟩ 1000 100 driverEcho
    (fun i req => Nat.le_refl req) rfl (by decide)
  exact ⟨fun i req => Nat.le_refl req, rfl, by decide, h.1, h.2.2.2.1, by decide⟩

/-- The byte image of a 16-bit sample buffer is twice as long as the
buffer. -/
lemma pcm16_length (buf : List Int) : (pcm16 buf).length = 2 * buf.length := by
  induction buf with
  | nil => simp [pcm16]
  | cons s rest ih =>
    simp only [pcm16, le16, List.length_append, List.length_cons, List.length_nil, ih]
    omega

/-- Little-endian decoding inverts 32-bit little-endian encoding. -/
lemma dec32_le32 (x : Nat) (h : x < 2 ^ 32) :
    dec32 (x % 256) (x / 256 % 256) (x / 65536 % 256) (x / 16777216 % 256) = x := by
  unfold dec32
  omega

/-- Little-endian decoding inverts 16-bit little-endian encoding. -/
lemma dec16_le16 (x : Nat) (h : x < 2 ^ 16) :
    dec16 (x % 256) (x / 256 % 256) = x := by
  unfold dec16
  omega

/-- C5: encoding N samples at sample rate R and bit depth 16 produces a
44-byte WAV header whose fields, parsed back, satisfy ChunkSize = 36 + 2N,
Subchunk1Size = 16, AudioFormat = 1, NumChannels = 1, Subchunk2Size = 2N,
ByteRate = 2R, BlockAlign = 2, followed by exactly 2N bytes of PCM payload,
for a total file size of 44 + 2N bytes. -/
theorem c5_wav_header_roundtrip (sampleRate : Nat) (buf : List Int)
    (hN : 36 + 2 * buf.length < 2 ^ 32) (hR : sampleRate < 2 ^ 32)
    (hBR : 2 * sampleRate < 2 ^ 32) :
    (wavFileBytes sampleRate 16 buf).length = 44 + 2 * buf.length ∧
    parseWav (wavFileBytes sampleRate 16 buf) = some
      { chunkId := [0x52, 0x49, 0x46, 0x46]
        chunkSize := 36 + 2 * buf.length
        format := [0x57, 0x41, 0x56, 0x45]
        subchunk1Id := [0x66, 0x6D, 0x74, 0x20]
        subchunk1Size := 16
        audioFormat := 1
        numChannels := 1
        sampleRate := sampleRate
        byteRate := 2 * sampleRate
        blockAlign := 2
        bitsPerSample := 16
        subchunk2Id := [0x64, 0x61, 0x74, 0x61]
        subchunk2Size := 2 * buf.length
        payload := pcm16 buf } := by
  have hd : buf.length * (16 / 8) % 2 ^ 32 = 2 * buf.length := by omega
  have hbr2 : sampleRate * 1 * (16 / 8) % 2 ^ 32 = 2 * sampleRate := by omega
  have hba : 1 * (16 / 8) % 2 ^ 16 = 2 := by omega
  have hsr : sampleRate % 2 ^ 32 = sampleRate := Nat.mod_eq_of_lt hR
  have hbits : 16 % 2 ^ 16 = 16 := by omega
  have hwav : wavFileBytes sampleRate 16 buf =
      [0x52, 0x49, 0x46, 0x46] ++ le32 (36 + 2 * buf.length) ++
      [0x57, 0x41, 0x56, 0x45] ++ [0x66, 0x6D, 0x74, 0x20] ++ le32 16 ++
      le16 1 ++ le16 1 ++ le32 sampleRate ++ le32 (2 * sampleRate) ++ le16 2 ++
      le16 16 ++ [0x64, 0x61, 0x74, 0x61] ++ le32 (2 * buf.length) ++ pcm16 buf := by
    unfold wavFileBytes wavWrites
    simp only [hd, hbr2, hba, hsr, hbits]
    have hcs : (36 + 2 * buf.length) % 2 ^ 32 = 36 + 2 * buf.length :=
      Nat.mod_eq_of_lt hN
    have htake : (pcm16 buf).take (2 * buf.length) = pcm16 buf := by
      rw [← pcm16_length, List.take_length]
    simp only [hcs, htake, List.flatten_cons, List.flatten_nil, List.append_nil,
      List.append_assoc]
  constructor
  · rw [hwav]
    simp only [List.length_append, le32, le16, List.length_cons, List.length_nil,
      pcm16_length]
  · rw [hwav]
    simp only [le32, le16, List.cons_append, List.nil_append]
    simp only [parseWav, Option.some.injEq, WavFields.mk.injEq, dec32, dec16,
      and_true, true_and]
    omega

/-- Witness for C5: R = 16000, N = 16000 (the target for a 1000 ms
recording) gives dataSize 32000 and total file size 32044 bytes. -/
theorem c5_wav_header_roundtrip_witness :
    36 + 2 * (List.replicate 16000 (0 : Int)).length < 2 ^ 32 ∧
    (wavFileBytes 16000 16 (List.replicate 16000 (0 : Int))).length = 32044 ∧
    2 * (List.replicate 16000 (0 : Int)).length = 32000 := by
  have hlen : (List.replicate 16000 (0 : Int)).length = 16000 :=
    List.length_replicate 16000 0
  have h := c5_wav_header_roundtrip 16000 (List.replicate 16000 (0 : Int))
    (by rw [hlen]; norm_num) (by norm_num) (by norm_num)
  refine ⟨by rw [hlen]; norm_num, ?_, by rw [hlen]⟩
  rw [h.1, hlen]

/-- For int16 values other than the minimum, the abs-then-narrow step is the
true absolute value. -/
lemma absInt16_eq_natAbs (s : Int) (h1 : -32767 ≤ s) (h2 : s ≤ 32767) :
    absInt16 s = (s.natAbs : Int) := by
  unfold absInt16
  have hlt : s.natAbs < 32768 := by omega
  have hmod : s.natAbs % 65536 = s.natAbs := Nat.mod_eq_of_lt (by omega)
  simp only [hmod]
  rw [if_pos hlt]

/-- At the int16 minimum the abs-then-narrow step wraps back to -32768. -/
lemma absInt16_min : absInt16 (-32768) = -32768 := by decide

/-- The peak update as it would act on natural numbers: samples equal to
-32768 are skipped (their wrapped absolute value is negative and never
beats the non-negative peak), all others contribute their absolute value. -/
def peakNatStep (m : Nat) (s : Int) : Nat :=
  if s = -32768 then m else Nat.max m s.natAbs

/-- The concrete peak loop agrees with the natural-number fold for any
buffer of int16-range samples. -/
lemma foldl_peakStep_eq (samples : List Int) (p : Nat) (hp : p ≤ 32767)
    (hrange : ∀ s ∈ samples, -32768 ≤ s ∧ s ≤ 32767) :
    List.foldl peakStep (p : Int) samples =
      ((List.foldl peakNatStep p samples : Nat) : Int) := by
  induction samples generalizing p with
  | nil => simp
  | cons s rest ih =>
    have hs := hrange s (by simp)
    have hrest : ∀ t ∈ rest, -32768 ≤ t ∧ t ≤ 32767 := fun t ht => hrange t (by simp [ht])
    simp only [List.foldl_cons]
    by_cases hmin : s = -32768
    · subst hmin
      have hstep : peakStep (p : Int) (-32768) = (p : Int) := by
        unfold peakStep
        rw [absInt16_min, if_neg (by omega)]
      have hnstep : peakNatStep p (-32768) = p := by
        unfold peakNatStep
        rw [if_pos rfl]
      rw [hstep, hnstep]
      exact ih p hp hrest
    · have habs : absInt16 s = (s.natAbs : Int) :=
        absInt16_eq_natAbs s (by omega) hs.2
      have hna : s.natAbs ≤ 32767 := by omega
      have hnstep : peakNatStep p s = Nat.max p s.natAbs := by
        unfold peakNatStep
        rw [if_neg hmin]
      rw [hnstep]
      by_cases hgt : (p : Nat) < s.natAbs
      · have hstep : peakStep (p : Int) s = (s.natAbs : Int) := by
          unfold peakStep
          rw [habs, if_pos (by exact_mod_cast hgt)]
        have hmax : Nat.max p s.natAbs = s.natAbs := Nat.max_eq_right (Nat.le_of_lt hgt)
        rw [hstep, hmax]
        exact ih s.natAbs hna hrest
      · have hstep : peakStep (p : Int) s = (p : Int) := by
          unfold peakStep
          rw [habs, if_neg (by exact_mod_cast hgt)]
        have hmax : Nat.max p s.natAbs = p := Nat.max_eq_left (Nat.le_of_not_lt hgt)
        rw [hstep, hmax]
        exact ih p hp hrest

/-- The natural-number peak fold stays within the int16 positive range. -/
lemma foldl_peakNatStep_le (samples : List Int) (p : Nat) (hp : p ≤ 32767)
    (hrange : ∀ s ∈ samples, -32768 ≤ s ∧ s ≤ 32767) :
    List.foldl peakNatStep p samples ≤ 32767 := by
  induction samples generalizing p with
  | nil => simpa using hp
  | cons s rest ih =>
    have hs := hrange s (by simp)
    have hrest : ∀ t ∈ rest, -32768 ≤ t ∧ t ≤ 32767 := fun t ht => hrange t (by simp [ht])
    simp only [List.foldl_cons]
    apply ih _ _ hrest
    unfold peakNatStep
    split
    · exact hp
    · have hna : s.natAbs ≤ 32767 := by
        rename_i hne
        omega
      exact Nat.max_le.mpr ⟨hp, hna⟩

/-- The peak fold over an all-zero buffer keeps the accumulator. -/
lemma foldl_peakNatStep_replicate_zero (k : Nat) :
    List.foldl peakNatStep 0 (List.replicate k 0) = 0 := by
  induction k with
  | zero => rfl
  | succ n ih =>
    simp only [List.replicate, List.foldl_cons]
    have : peakNatStep 0 0 = 0 := by decide
    rw [this]
    exact ih

/-- A buffer of k pairs of alternating samples of +1000 and -1000. -/
def altSamples : Nat → List Int
  | 0 => []
  | n + 1 => 1000 :: -1000 :: altSamples n

/-- Alternating-sample buffers are in the int16 range. -/
lemma altSamples_range (n : Nat) : ∀ s ∈ altSamples n, -32768 ≤ s ∧ s ≤ 32767 := by
  induction n with
  | zero => simp [altSamples]
  | succ m ih =>
    intro s hs
    simp only [altSamples, List.mem_cons] at hs
    rcases hs with h | h | h
    · subst h; constructor <;> omega
    · subst h; constructor <;> omega
    · exact ih s h

/-- The peak fold over an alternating buffer from an accumulator of 1000
stays at 1000. -/
lemma foldl_peakNatStep_alt_1000 (n : Nat) :
    List.foldl peakNatStep 1000 (altSamples n) = 1000 := by
  induction n with
  | zero => rfl
  | succ m ih =>
    simp only [altSamples, List.foldl_cons]
    have h1 : peakNatStep 1000 1000 = 1000 := by decide
    have h2 : peakNatStep 1000 (-1000) = 1000 := by decide
    rw [h1, h2]
    exact ih

/-- The peak fold over a non-empty alternating buffer is 1000. -/
lemma foldl_peakNatStep_alt (k : Nat) :
    List.foldl peakNatStep 0 (altSamples (k + 1)) = 1000 := by
  simp only [altSamples, List.foldl_cons]
  have h1 : peakNatStep 0 1000 = 1000 := by decide
  have h2 : peakNatStep 1000 (-1000) = 1000 := by decide
  rw [h1, h2]
  exact foldl_peakNatStep_alt_1000 k

/-- The reduction stated by the spec's words: the maximum absolute sample
value over the samples read. -/
def specPeakMaxAbs (samples : List Int) : Nat :=
  samples.foldl (fun m s => Nat.max m s.natAbs) 0

/-- C9 counterexample: on a read that yields the single sample -32768 the
code returns 0, while the claim's "maximum absolute value over the samples
actually read" is 32768: the `int16_t absVal = abs(...)` narrowing wraps
-32768's absolute value back to -32768, which never beats the non-negative
peak accumulator. -/
theorem c9_counterexample_int16_min :
    CamS3_Mic.getPeakAmplitude ⟨true, 16000, 16, true⟩ true (some [-32768]) = 0 ∧
    specPeakMaxAbs [-32768] = 32768 := by
  decide

/-- C9 amended: `getPeakAmplitude` returns 0 when the microphone is not
initialized, when the scratch allocation fails, or when the read fails or
yields no samples; otherwise it returns the maximum absolute value over the
samples read computed with int16 wraparound, i.e. samples equal to -32768
are skipped and every other sample contributes its absolute value (this
equals the true maximum absolute value whenever no sample is -32768); the
result is always at most 32767; an all-zero buffer gives 0 and a non-empty
alternating +1000, -1000 buffer gives 1000. -/
theorem c9_peak_amended (st : MicState) (allocOk : Bool) (samples : List Int)
    (readResult : Option (List Int)) (k : Nat)
    (hrange : ∀ s ∈ samples, -32768 ≤ s ∧ s ≤ 32767) :
    CamS3_Mic.getPeakAmplitude { st with initialized := false } allocOk readResult = 0 ∧
    CamS3_Mic.getPeakAmplitude st false readResult = 0 ∧
    CamS3_Mic.getPeakAmplitude st allocOk none = 0 ∧
    CamS3_Mic.getPeakAmplitude { st with initialized := true } true (some samples) =
      List.foldl peakNatStep 0 samples ∧
    List.foldl peakNatStep 0 samples ≤ 32767 ∧
    CamS3_Mic.getPeakAmplitude { st with initialized := true } true
      (some (List.replicate k 0)) = 0 ∧
    CamS3_Mic.getPeakAmplitude { st with initialized := true } true
      (some (altSamples (k + 1))) = 1000 := by
  have hmain : ∀ l : List Int, (∀ s ∈ l, -32768 ≤ s ∧ s ≤ 32767) →
      CamS3_Mic.getPeakAmplitude { st with initialized := true } true (some l) =
        List.foldl peakNatStep 0 l := by
    intro l hl
    cases l with
    | nil => rfl
    | cons a t =>
      unfold CamS3_Mic.getPeakAmplitude peakLoop
      simp only [Bool.not_true, Bool.false_eq_true, if_false, List.length_cons]
      rw [if_neg (by omega)]
      rw [show (0 : Int) = ((0 : Nat) : Int) from rfl,
        foldl_peakStep_eq (a :: t) 0 (by omega) hl]
      exact Int.toNat_natCast _
  refine ⟨?_, ?_, ?_, hmain samples hrange,
    foldl_peakNatStep_le samples 0 (by omega) hrange, ?_, ?_⟩
  · unfold CamS3_Mic.getPeakAmplitude
    simp
  · unfold CamS3_Mic.getPeakAmplitude
    cases h : st.initialized <;> simp [h]
  · unfold CamS3_Mic.getPeakAmplitude
    cases h : st.initialized <;> cases allocOk <;> simp [h]
  · rw [hmain (List.replicate k 0) ?_]
    · exact foldl_peakNatStep_replicate_zero k
    · intro s hs
      rw [List.eq_of_mem_replicate hs]
      constructor <;> omega
  · rw [hmain (altSamples (k + 1)) (altSamples_range (k + 1))]
    exact foldl_peakNatStep_alt k

/-- Witness for C9 on the buffer [0, 1000, -1000]. -/
theorem c9_peak_amended_witness :
    (∀ s ∈ [(0 : Int), 1000, -1000], -32768 ≤ s ∧ s ≤ 32767) ∧
    CamS3_Mic.getPeakAmplitude ⟨true, 16000, 16, true⟩ true
      (some [(0 : Int), 1000, -1000]) =
      List.foldl peakNatStep 0 [(0 : Int), 1000, -1000] ∧
    List.foldl peakNatStep 0 [(0 : Int), 1000, -1000] = 1000 := by
  have h := c9_peak_amended ⟨true, 16000, 16, true⟩ true [(0 : Int), 1000, -1000]
    none 2 (by decide)
  exact ⟨by decide, h.2.2.2.1, by decide⟩
